import Mathlib

/-!
Verification of the configuration and validation subsystem of the
autonomous-trading-ecosystem-optimizer repository.

Shallow embedding notes:
* Python floats are modelled as rationals (`ℚ`); every comparison the code
  performs (against 0, 0.5, 1.0) is exact in binary floating point, so the
  rational model agrees with the float semantics on all the claims below.
* A possibly-malformed numeric field is `Option ℚ`: `some q` is a float with
  value `q`, `none` is a value whose comparison with a number raises a
  TypeError at run time.
* Exceptions are the `Except` monad; the `try/except` of `Settings.validate`
  becomes a total function that pattern-matches on the `Except` result.
* `os.getenv` reads from an environment modelled as `String → Option String`.
  Dataclass field defaults such as `project_id: str = os.getenv(...)` are
  evaluated once, when the class body executes at module import; therefore the
  `FirebaseConfig` defaults take the import-time environment, while
  `Settings.__init__` reads `ENVIRONMENT` from the environment current at
  construction time.  `makeSettings` keeps the two environments separate.
* `logging` levels are the numeric constants of the Python logging module.
-/

namespace TradingOptimizer

/-- Numeric constants of the Python logging module. -/
def Logging.DEBUG : Nat := 10

/-- Numeric constant `logging.INFO`. -/
def Logging.INFO : Nat := 20

/-- Numeric constant `logging.WARNING`. -/
def Logging.WARNING : Nat := 30

/-- Numeric constant `logging.ERROR`. -/
def Logging.ERROR : Nat := 40

/-- One record emitted through the `logging` module: a numeric level and a
message. -/
structure LogEntry where
  level : Nat
  msg : String
deriving DecidableEq, Repr

/-- `class TradingPlatform(Enum)` — the five supported venues. -/
inductive TradingPlatform where
  | BINANCE
  | COINBASE
  | KRAKEN
  | FTX
  | DERIBIT
deriving DecidableEq, Repr

/-- The `.value` string of each `TradingPlatform` member. -/
def TradingPlatform.value : TradingPlatform → String
  | .BINANCE => "binance"
  | .COINBASE => "coinbase"
  | .KRAKEN => "kraken"
  | .FTX => "ftx"
  | .DERIBIT => "deribit"

/-- `os.getenv(key, default)` over an environment `env`. -/
def getenv (env : String → Option String) (key default : String) : String :=
  (env key).getD default

/-- A Python dict with string keys and string values, in insertion order. -/
abbrev PyDict := List (String × String)

/-- `d[k] = v` on a Python dict: overwrite the entry in place if the key is
present, otherwise append it. -/
def dictSet : PyDict → String → String → PyDict
  | [], k, v => [(k, v)]
  | (k', v') :: rest, k, v =>
      if k' = k then (k, v) :: rest else (k', v') :: dictSet rest k v

/-- `d.get(k)` on a Python dict. -/
def dictGet : PyDict → String → Option String
  | [], _ => none
  | (k', v') :: rest, k => if k' = k then some v' else dictGet rest k

/-- The dict literal assigned to the class attribute
`FirebaseConfig.collections`   (lines 26–31 of configsettings.py), evaluated
once when the class body runs. -/
def collectionsLiteral : PyDict :=
  [("market_states", "market_synthesis_states"),
   ("performance_metrics", "historical_performance"),
   ("allocations", "resource_allocations"),
   ("system_logs", "ecosystem_logs")]

/-- The mutable heap cell holding the one dict object that the class attribute
`FirebaseConfig.collections` references. `collections` carries no type
annotation in the class body, so the dataclass machinery does not make it a
field: every instance resolves the name through the class, to this single
object. -/
structure ClassHeap where
  collectionsObj : PyDict
deriving DecidableEq, Repr

/-- The heap as it is right after the module is imported. -/
def initClassHeap : ClassHeap := ⟨collectionsLiteral⟩

/-- `@dataclass FirebaseConfig` — its two annotated fields. `collections` is
deliberately absent: it is a class attribute, not an instance field. -/
structure FirebaseConfig where
  project_id : String
  credentials_path : String
deriving DecidableEq, Repr

/-- `FirebaseConfig()` with no arguments: the dataclass default values, which
were computed by `os.getenv(...)` when the class body executed at
module-import time (`importEnv`). -/
def FirebaseConfig.fromDefaults (importEnv : String → Option String) :
    FirebaseConfig :=
  { project_id := getenv importEnv "FIREBASE_PROJECT_ID" "trading-ecosystem-optimizer",
    credentials_path := getenv importEnv "FIREBASE_CREDENTIALS_PATH" "./config/firebase-creds.json" }

/-- Attribute lookup `inst.collections`: the instance has no own slot named
`collections` (it is not an annotated dataclass field), so the lookup falls
through to the class attribute — the shared dict object in the heap — for
every instance alike. -/
def FirebaseConfig.getCollections (h : ClassHeap) (_inst : FirebaseConfig) :
    PyDict :=
  h.collectionsObj

/-- `inst.collections[k] = v`: mutates the single shared dict object. -/
def FirebaseConfig.putCollectionsEntry (h : ClassHeap) (_inst : FirebaseConfig)
    (k v : String) : ClassHeap :=
  ⟨dictSet h.collectionsObj k v⟩

/-- `@dataclass DataSynthesisConfig` with its literal defaults. -/
structure DataSynthesisConfig where
  windows_seconds : List Nat
  volatility_lookback : Nat
  correlation_threshold : ℚ
  min_liquidity_usd : ℚ
  n_components_pca : Nat
  cluster_count : Nat
deriving DecidableEq, Repr

/-- `DataSynthesisConfig()` with no arguments. -/
def DataSynthesisConfig.fromDefaults : DataSynthesisConfig :=
  { windows_seconds := [300, 900, 3600, 7200, 21600],
    volatility_lookback := 100,
    correlation_threshold := 7/10,
    min_liquidity_usd := 10000,
    n_components_pca := 5,
    cluster_count := 8 }

/-- `@dataclass RiskConfig`. Each field is `Option ℚ`: `some q` is a float,
`none` a malformed (non-numeric) value whose comparison raises. -/
structure RiskConfig where
  max_allocation_per_platform : Option ℚ
  max_drawdown_threshold : Option ℚ
  var_confidence_level : Option ℚ
  max_correlation_exposure : Option ℚ
deriving DecidableEq, Repr

/-- `RiskConfig()` with no arguments: 0.25, 0.15, 0.95, 0.6. -/
def RiskConfig.fromDefaults : RiskConfig :=
  { max_allocation_per_platform := some (1/4),
    max_drawdown_threshold := some (3/20),
    var_confidence_level := some (19/20),
    max_correlation_exposure := some (3/5) }

/-- The instance attributes `Settings.__init__` assigns (lines 57–78). -/
structure Settings where
  environment : String
  debug_mode : Bool
  firebase : FirebaseConfig
  data_synthesis : DataSynthesisConfig
  risk : RiskConfig
  enabled_platforms : List TradingPlatform
  metrics_update_interval_sec : Nat
  reallocation_check_interval_sec : Nat
  log_level : Nat
deriving DecidableEq, Repr

/-- `Settings.__init__`. `constructEnv` is the process environment at the
moment `Settings()` runs (it supplies `ENVIRONMENT`); `importEnv` is the
environment at module import, baked into the `FirebaseConfig` dataclass
defaults. -/
def makeSettings (importEnv constructEnv : String → Option String) : Settings :=
  let environment := getenv constructEnv "ENVIRONMENT" "development"
  let debug_mode := decide (environment = "development")
  { environment := environment,
    debug_mode := debug_mode,
    firebase := FirebaseConfig.fromDefaults importEnv,
    data_synthesis := DataSynthesisConfig.fromDefaults,
    risk := RiskConfig.fromDefaults,
    enabled_platforms := [.BINANCE, .COINBASE, .KRAKEN],
    metrics_update_interval_sec := 60,
    reallocation_check_interval_sec := 300,
    log_level := if debug_mode then Logging.DEBUG else Logging.INFO }

/-- An environment with no variables set. -/
def emptyEnv : String → Option String := fun _ => none

/-- Exceptions that the body of `Settings.validate` can raise. -/
inductive PyExc where
  | assertionError (msg : String)
  | typeError
deriving DecidableEq, Repr

/-- The `str(e)` rendering of a caught exception. -/
def PyExc.message : PyExc → String
  | .assertionError m => m
  | .typeError => "TypeError: comparison not supported between instances"

/-- `assert cond` / `assert cond, msg`: propagate an exception raised while
evaluating the condition, raise `AssertionError(msg)` if it is false. -/
def pyAssert (cond : Except PyExc Bool) (msg : String) : Except PyExc Unit :=
  match cond with
  | .error e => .error e
  | .ok true => .ok ()
  | .ok false => .error (.assertionError msg)

/-- The chained comparison `0 < x <= 1.0` (line 83): a TypeError on a
malformed operand, otherwise the conjunction. -/
def checkAlloc (x : Option ℚ) : Except PyExc Bool :=
  match x with
  | some q => .ok (decide (0 < q ∧ q ≤ 1))
  | none => .error .typeError

/-- The chained comparison `0 < x < 1.0` (line 84). -/
def checkDrawdown (x : Option ℚ) : Except PyExc Bool :=
  match x with
  | some q => .ok (decide (0 < q ∧ q < 1))
  | none => .error .typeError

/-- The chained comparison `0.5 <= x < 1.0` (line 85). -/
def checkVarConf (x : Option ℚ) : Except PyExc Bool :=
  match x with
  | some q => .ok (decide (1/2 ≤ q ∧ q < 1))
  | none => .error .typeError

/-- The four assert statements of `Settings.validate` (lines 83–86), in
order, with Python's exception propagation. -/
def runChecks (s : Settings) : Except PyExc Unit := do
  pyAssert (checkAlloc s.risk.max_allocation_per_platform) ""
  pyAssert (checkDrawdown s.risk.max_drawdown_threshold) ""
  pyAssert (checkVarConf s.risk.var_confidence_level) ""
  pyAssert (.ok (decide (2 ≤ s.enabled_platforms.length)))
    "Need at least 2 platforms for optimization"

/-- The `try` body of `Settings.validate` (lines 83–94): the four asserts,
then the observational credentials-file check, which only logs.
`credsFileExists` is whether `os.path.exists(self.firebase.credentials_path)`
is true at the time of the call. On success the body returns `True` together
with the diagnostic it logged. -/
def validateBody (s : Settings) (credsFileExists : Bool) :
    Except PyExc (List LogEntry) := do
  runChecks s
  if credsFileExists then
    pure [⟨Logging.INFO, "Firebase credentials found at " ++ s.firebase.credentials_path⟩]
  else
    pure [⟨Logging.WARNING, "Firebase credentials not found at " ++ s.firebase.credentials_path⟩]

/-- `Settings.validate` (lines 80–97): the try/except makes it total — any
exception from the body is caught, logged at error level, and turned into
`False`. The result is the returned boolean paired with the log records the
call emitted. -/
def Settings.validate (s : Settings) (credsFileExists : Bool) :
    Bool × List LogEntry :=
  match validateBody s credsFileExists with
  | .ok logs => (true, logs)
  | .error e =>
      (false, [⟨Logging.ERROR, "Configuration validation failed: " ++ e.message⟩])

/-!
Process-scope model for the settings lifecycle (configsettings.py line 100 and
its sole user, infrastructurefirebase_client.py line 18).  In the given scope
the module constructs one `Settings` object at import, binds it to the module
attribute `settings`, and the only operations ever performed on it afterwards
are acquiring that module attribute and calling `validate`, which assigns no
attribute.  Object identity is modelled by a numeric reference; a ghost
counter records how many times `Settings()` has been run.
-/

/-- The operations the given scope performs on the settings aggregate after
module import. -/
inductive ScopeOp where
  | acquireSettings
  | runValidate (credsFileExists : Bool)
deriving DecidableEq, Repr

/-- What an in-scope operation returns. -/
inductive OpResult where
  | ref (objId : Nat)
  | boolRes (b : Bool)
deriving DecidableEq, Repr

/-- Process state for the settings module: the reference bound to the module
attribute `settings`, the object it points to, and the ghost count of
`Settings()` constructions performed so far. -/
structure ProcState where
  settingsRef : Nat
  settingsObj : Settings
  constructionCount : Nat
deriving DecidableEq, Repr

/-- State right after `settings = Settings()` (line 100) ran at import: one
construction, reference 0. -/
def procInit (importEnv constructEnv : String → Option String) : ProcState :=
  { settingsRef := 0,
    settingsObj := makeSettings importEnv constructEnv,
    constructionCount := 1 }

/-- One in-scope operation. Acquiring yields the stored reference; `validate`
reads the object and yields its boolean, assigning nothing. -/
def stepOp (st : ProcState) : ScopeOp → ProcState × OpResult
  | .acquireSettings => (st, .ref st.settingsRef)
  | .runValidate fs => (st, .boolRes (st.settingsObj.validate fs).1)

/-- Run a sequence of in-scope operations, collecting the results. -/
def runOps (st : ProcState) : List ScopeOp → ProcState × List OpResult
  | [] => (st, [])
  | op :: rest =>
      let (st', r) := stepOp st op
      let (stF, rs) := runOps st' rest
      (stF, r :: rs)

/-!
FirebaseManager (infrastructurefirebase_client.py lines 20–37).  The class
attributes `_instance` and `_initialized` and the one-time initialization are
modelled as a state machine; `acquireManager` is one evaluation of
`FirebaseManager()`, i.e. `__new__` followed by `__init__`.  `initCount` is a
ghost counter of how many times `_initialize_firebase` has run, and `nextId`
a ghost allocator for object identities.
-/

/-- The class-level state of `FirebaseManager`. -/
structure FMState where
  inst : Option Nat
  initDone : Bool
  initCount : Nat
  nextId : Nat
deriving DecidableEq, Repr

/-- The class attributes as declared (lines 23–25): `_instance = None`,
`_initialized = False`. -/
def fmInitialState : FMState :=
  { inst := none, initDone := false, initCount := 0, nextId := 0 }

/-- `__new__` (lines 27–31): allocate a fresh object only when `_instance` is
`None`, otherwise hand back the stored one. -/
def fmNew (s : FMState) : Nat × FMState :=
  match s.inst with
  | some i => (i, s)
  | none =>
      (s.nextId, { s with inst := some s.nextId, nextId := s.nextId + 1 })

/-- `__init__` (lines 33–37): run the one-time initialization only when
`_initialized` is still false, then set it. -/
def fmInitStep (s : FMState) : FMState :=
  if s.initDone then s
  else { s with initDone := true, initCount := s.initCount + 1 }

/-- One evaluation of `FirebaseManager()`: `__new__` then `__init__` on the
returned object. -/
def acquireManager (s : FMState) : Nat × FMState :=
  let (oid, s1) := fmNew s
  (oid, fmInitStep s1)

/-- `n` sequential evaluations of `FirebaseManager()` from a state, returning
the list of object references handed out. -/
def runAcquires (s : FMState) : Nat → List Nat × FMState
  | 0 => ([], s)
  | n + 1 =>
      let (oid, s1) := acquireManager s
      let (rest, s2) := runAcquires s1 n
      (oid :: rest, s2)

/-! Helper lemmas (shared; not tied to any single claim). -/

/-- Sequencing in the `Except` monad unfolds to `Except.bind`. -/
lemma except_bind_def {α β : Type} (x : Except PyExc α) (f : α → Except PyExc β) :
    x >>= f = Except.bind x f := rfl

/-- `runChecks` succeeds exactly when the four checked conditions all hold,
provided the three risk fields are well-formed numbers. -/
lemma runChecks_ok_iff (s : Settings) (a d v : ℚ)
    (ha : s.risk.max_allocation_per_platform = some a)
    (hd : s.risk.max_drawdown_threshold = some d)
    (hv : s.risk.var_confidence_level = some v) :
    runChecks s = .ok () ↔
      ((0 < a ∧ a ≤ 1) ∧ (0 < d ∧ d < 1) ∧ (1/2 ≤ v ∧ v < 1) ∧
        2 ≤ s.enabled_platforms.length) := by
  simp only [runChecks, ha, hd, hv, checkAlloc, checkDrawdown, checkVarConf,
    except_bind_def, pyAssert]
  by_cases h1 : 0 < a <;> by_cases h2 : a ≤ 1 <;> by_cases h3 : 0 < d <;>
    by_cases h4 : d < 1 <;> by_cases h5 : (2:ℚ)⁻¹ ≤ v <;> by_cases h6 : v < 1 <;>
    by_cases h7 : 2 ≤ s.enabled_platforms.length <;>
    simp [h1, h2, h3, h4, h5, h6, h7, Except.bind]

/-- The boolean `validate` returns depends only on the outcome of
`runChecks`; the filesystem flag plays no part in it. -/
lemma validate_fst_eq (s : Settings) (fs : Bool) :
    (s.validate fs).1 =
      (match runChecks s with | .ok _ => true | .error _ => false) := by
  rcases hr : runChecks s with e | u
  · simp [Settings.validate, validateBody, except_bind_def, hr, Except.bind]
  · cases u
    cases fs <;>
      simp [Settings.validate, validateBody, except_bind_def, hr, Except.bind, pure, Except.pure]

/-- The boolean `validate` returns is `true` exactly when `runChecks`
succeeded. -/
lemma validate_fst_true_iff (s : Settings) (fs : Bool) :
    (s.validate fs).1 = true ↔ runChecks s = .ok () := by
  rw [validate_fst_eq]
  rcases hr : runChecks s with e | u
  · simp
  · cases u; simp

/-!  Claim theorems.  -/

/-- C1: for every assignment of the risk bounds (max allocation per platform,
max drawdown, VaR confidence) and every enabled-platform list,
`Settings.validate` returns true if and only if all four checks hold
simultaneously: `0 < max_allocation_per_platform ≤ 1.0`,
`0 < max_drawdown_threshold < 1.0`, `0.5 ≤ var_confidence_level < 1.0`, and
the enabled-platform list has at least 2 members — boundary cases included
(allocation exactly 1.0 passes; drawdown exactly 1.0 fails; VaR confidence
exactly 0.5 passes and exactly 1.0 fails). -/
theorem validate_true_iff_checks (env : String) (dbg : Bool)
    (fb : FirebaseConfig) (ds : DataSynthesisConfig) (a d v : ℚ)
    (c : Option ℚ) (ps : List TradingPlatform) (mi ri ll : Nat) (fs : Bool) :
    (Settings.validate
      { environment := env, debug_mode := dbg, firebase := fb,
        data_synthesis := ds,
        risk := { max_allocation_per_platform := some a,
                  max_drawdown_threshold := some d,
                  var_confidence_level := some v,
                  max_correlation_exposure := c },
        enabled_platforms := ps, metrics_update_interval_sec := mi,
        reallocation_check_interval_sec := ri, log_level := ll } fs).1 = true
      ↔ ((0 < a ∧ a ≤ 1) ∧ (0 < d ∧ d < 1) ∧ (1/2 ≤ v ∧ v < 1) ∧
          2 ≤ ps.length) :=
  (validate_fst_true_iff _ _).trans (runChecks_ok_iff _ a d v rfl rfl rfl)

/-- A settings object at the all-default values except that
`max_correlation_exposure` is 2.0, outside (0,1]. -/
def corrOutOfRangeSettings : Settings :=
  { makeSettings emptyEnv emptyEnv with
    risk := { RiskConfig.fromDefaults with max_correlation_exposure := some 2 } }

/-- C2, counterexample: the claim says that a settings object whose
`max_correlation_exposure` lies outside (0,1] while all other bounds and the
platform count are valid makes `validate` return false; on the concrete
object with `max_correlation_exposure = 2.0` and every other field at its
default, `validate` returns true (for either state of the credentials file),
so the claim is false. -/
theorem validate_corr_cex :
    corrOutOfRangeSettings.risk.max_correlation_exposure = some 2 ∧
    ¬(0 < (2:ℚ) ∧ (2:ℚ) ≤ 1) ∧
    (corrOutOfRangeSettings.validate true).1 = true ∧
    (corrOutOfRangeSettings.validate false).1 = true := by
  have h : runChecks corrOutOfRangeSettings = .ok () := by
    rw [runChecks_ok_iff corrOutOfRangeSettings (1/4) (3/20) (19/20) rfl rfl rfl]
    refine ⟨by norm_num, by norm_num, by norm_num, ?_⟩
    show 2 ≤ (3 : Nat)
    norm_num
  refine ⟨rfl, by norm_num, ?_, ?_⟩ <;> rw [validate_fst_true_iff] <;> exact h

/-- C2, amended: `Settings.validate` never inspects
`max_correlation_exposure`; replacing it by any value, in or out of (0,1],
leaves the returned boolean and the emitted diagnostics unchanged, so a
configuration whose `max_correlation_exposure` violates (0,1] while the other
bounds and the platform count are valid is still reported valid. -/
theorem validate_corr_independent (s : Settings) (c : Option ℚ) (fs : Bool) :
    Settings.validate
        { s with risk := { s.risk with max_correlation_exposure := c } } fs
      = s.validate fs := by
  rcases s with ⟨env, dbg, fb, ds, ⟨ma, md, mv, mc⟩, ps, mi, ri, ll⟩
  rfl

/-- C3: `Settings.validate` never propagates an exception past its own
boundary — whenever the try body raises (malformed fields included), the call
still returns, with boolean `false`, and the failure is communicated only
through that boolean plus one error-level diagnostic log entry. -/
theorem validate_false_of_exc (s : Settings) (fs : Bool) (e : PyExc)
    (h : validateBody s fs = .error e) :
    (s.validate fs).1 = false ∧
    (s.validate fs).2 =
      [⟨Logging.ERROR, "Configuration validation failed: " ++ e.message⟩] := by
  simp [Settings.validate, h]

/-- A settings object whose `max_allocation_per_platform` is malformed
(non-numeric), so the first assert raises a TypeError. -/
def malformedSettings : Settings :=
  { makeSettings emptyEnv emptyEnv with
    risk := { RiskConfig.fromDefaults with max_allocation_per_platform := none } }

/-- Witness for C3: on the concrete malformed settings the body raises a
TypeError, and `validate` returns `false`. -/
theorem validate_false_of_exc_witness :
    validateBody malformedSettings true = .error .typeError ∧
    (malformedSettings.validate true).1 = false :=
  ⟨rfl, (validate_false_of_exc malformedSettings true .typeError rfl).1⟩

/-- C4: the credentials-file existence check inside `validate` is
observational only — two runs that differ only in whether the file at
`firebase.credentials_path` exists return the same boolean; in particular the
file's absence never causes validation to fail. -/
theorem validate_result_fs_independent (s : Settings) (fs1 fs2 : Bool) :
    (s.validate fs1).1 = (s.validate fs2).1 :=
  (validate_fst_eq s fs1).trans (validate_fst_eq s fs2).symm

/-- An environment at construction time in which `FIREBASE_PROJECT_ID` has
been set after module import. -/
def constructTimeEnv : String → Option String :=
  fun k => if k = "FIREBASE_PROJECT_ID" then some "other-project" else none

/-- C5, counterexample: the claim says the constructed object's
`firebase.project_id` equals the value of `FIREBASE_PROJECT_ID` in effect at
the moment `Settings()` is constructed.  Concretely: the module is imported
with no variables set, then `FIREBASE_PROJECT_ID` is set to
`"other-project"`, then `Settings()` runs.  The dataclass default
`project_id: str = os.getenv(...)` was evaluated once, when the class body
executed at import, so the field is still the default
`"trading-ecosystem-optimizer"`, not `"other-project"` — the claim is false
at this input. -/
theorem settings_env_read_time_cex :
    constructTimeEnv "FIREBASE_PROJECT_ID" = some "other-project" ∧
    (makeSettings emptyEnv constructTimeEnv).firebase.project_id
      = "trading-ecosystem-optimizer" ∧
    (makeSettings emptyEnv constructTimeEnv).firebase.project_id
      ≠ "other-project" := by
  refine ⟨rfl, rfl, ?_⟩
  decide

/-- C5, amended: `environment` equals `ENVIRONMENT`-or-default as of the
environment current when `Settings()` runs, while `firebase.project_id` and
`firebase.credentials_path` equal their variable-or-default as of the
environment current when the module was imported (the dataclass defaults);
when the environment is unchanged between import and construction — in
particular for the module-level `settings` object — all three fields equal
their variable's value, or the defaults `"development"`,
`"trading-ecosystem-optimizer"` and `"./config/firebase-creds.json"` when
unset. -/
theorem settings_fields_from_envs (iE cE : String → Option String) :
    (makeSettings iE cE).environment = getenv cE "ENVIRONMENT" "development" ∧
    (makeSettings iE cE).firebase.project_id
      = getenv iE "FIREBASE_PROJECT_ID" "trading-ecosystem-optimizer" ∧
    (makeSettings iE cE).firebase.credentials_path
      = getenv iE "FIREBASE_CREDENTIALS_PATH" "./config/firebase-creds.json" :=
  ⟨rfl, rfl, rfl⟩

/-- C6: for every environment, the constructed settings' debug flag is true
iff the deployment environment name equals `"development"` by case-sensitive
exact string match, and the logging verbosity level is the debug level
exactly when the flag is true, the info level otherwise. -/
theorem debug_mode_iff_development (iE cE : String → Option String) :
    ((makeSettings iE cE).debug_mode = true ↔
      (makeSettings iE cE).environment = "development") ∧
    (makeSettings iE cE).log_level =
      (if (makeSettings iE cE).debug_mode then Logging.DEBUG
       else Logging.INFO) := by
  constructor
  · simp [makeSettings]
  · rfl

/-- C9: default construction with none of the consumed environment variables
set yields environment `"development"`, debug flag true, the enabled-platform
list of exactly binance, coinbase and kraken (3 members), the debug logging
level, a 60-second metrics update interval, and a 300-second reallocation
check interval. -/
theorem default_construction_values :
    (makeSettings emptyEnv emptyEnv).environment = "development" ∧
    (makeSettings emptyEnv emptyEnv).debug_mode = true ∧
    (makeSettings emptyEnv emptyEnv).enabled_platforms
      = [.BINANCE, .COINBASE, .KRAKEN] ∧
    (makeSettings emptyEnv emptyEnv).enabled_platforms.map TradingPlatform.value
      = ["binance", "coinbase", "kraken"] ∧
    (makeSettings emptyEnv emptyEnv).enabled_platforms.length = 3 ∧
    (makeSettings emptyEnv emptyEnv).log_level = Logging.DEBUG ∧
    (makeSettings emptyEnv emptyEnv).metrics_update_interval_sec = 60 ∧
    (makeSettings emptyEnv emptyEnv).reallocation_check_interval_sec = 300 :=
  ⟨rfl, by decide, rfl, rfl, rfl, by decide, rfl, rfl⟩

/-- Each in-scope operation leaves the process state untouched. -/
lemma stepOp_fst (st : ProcState) (op : ScopeOp) : (stepOp st op).1 = st := by
  cases op <;> rfl

/-- Running any sequence of in-scope operations leaves the state untouched. -/
lemma runOps_fst (st : ProcState) (l : List ScopeOp) : (runOps st l).1 = st := by
  induction l generalizing st with
  | nil => rfl
  | cons op rest ih => cases op <;> simp [runOps, stepOp, ih]

/-- C7: in the given scope the settings aggregate is constructed exactly once
per process and immutable afterwards — after any sequence of in-scope
operations the process state still records exactly one construction and the
very same settings object, and an acquisition performed at any point returns
the reference created at import, so every acquisition yields the same single
instance. -/
theorem settings_single_instance_immutable (iE cE : String → Option String)
    (ops : List ScopeOp) :
    (runOps (procInit iE cE) ops).1 = procInit iE cE ∧
    (runOps (procInit iE cE) ops).1.constructionCount = 1 ∧
    (runOps (procInit iE cE) ops).1.settingsObj = makeSettings iE cE ∧
    (stepOp (runOps (procInit iE cE) ops).1 .acquireSettings).2
      = .ref (procInit iE cE).settingsRef := by
  refine ⟨runOps_fst _ _, ?_, ?_, ?_⟩ <;> rw [runOps_fst] <;> rfl

/-- The `FirebaseManager` class state after the first `FirebaseManager()`
call: the singleton allocated with identity 0 and the one-time
initialization done once. -/
def fmAfterFirst : FMState :=
  { inst := some 0, initDone := true, initCount := 1, nextId := 1 }

/-- The first `FirebaseManager()` call allocates object 0 and runs the
one-time initialization. -/
lemma acquireManager_first : acquireManager fmInitialState = (0, fmAfterFirst) := rfl

/-- Once the singleton exists and is initialized, `FirebaseManager()` is a
no-op returning the same object. -/
lemma acquireManager_stable : acquireManager fmAfterFirst = (0, fmAfterFirst) := rfl

/-- From the post-first-call state, any number of further calls hand out the
same reference and change nothing. -/
lemma runAcquires_stable (m : Nat) :
    runAcquires fmAfterFirst m = (List.replicate m 0, fmAfterFirst) := by
  induction m with
  | zero => rfl
  | succ k ih => simp [runAcquires, acquireManager_stable, ih, List.replicate]

/-- C8: every sequence of sequential `FirebaseManager()` acquisitions within
one process hands out the identity-same object (reference 0) every time —
never two distinct instances — the one-time Firebase initialization runs
exactly once, and constructing the manager again after initialization is a
no-op on the class state. -/
theorem firebase_manager_singleton (n : Nat) :
    (runAcquires fmInitialState (n + 1)).1 = List.replicate (n + 1) 0 ∧
    (runAcquires fmInitialState (n + 1)).2.initCount = 1 ∧
    acquireManager (runAcquires fmInitialState (n + 1)).2
      = (0, (runAcquires fmInitialState (n + 1)).2) := by
  have hmain : runAcquires fmInitialState (n + 1)
      = (List.replicate (n + 1) 0, fmAfterFirst) := by
    simp [runAcquires, acquireManager_first, runAcquires_stable n, List.replicate]
  refine ⟨by rw [hmain], by rw [hmain]; rfl, by rw [hmain]; exact acquireManager_stable⟩

/-- Writing a key into a Python dict makes a later read of that key return
the written value. -/
lemma dictGet_dictSet (d : PyDict) (k v : String) :
    dictGet (dictSet d k v) k = some v := by
  induction d with
  | nil => simp [dictSet, dictGet]
  | cons hd tl ih =>
      obtain ⟨k', v'⟩ := hd
      by_cases h : k' = k <;> simp [dictSet, dictGet, h, ih]

/-- C10: `FirebaseConfig.collections` is a single class-level object shared
by every instance rather than a per-instance field — every instance observes
the same mapping; at import it holds exactly the four entries
`market_states`, `performance_metrics`, `allocations` and `system_logs`; and
an entry added or changed through any one instance is observed through every
other instance and through every instance constructed afterwards. -/
theorem collections_shared_class_attr (h : ClassHeap) (i j : FirebaseConfig)
    (k v : String) (iE : String → Option String) :
    FirebaseConfig.getCollections h i = FirebaseConfig.getCollections h j ∧
    FirebaseConfig.getCollections initClassHeap i = collectionsLiteral ∧
    collectionsLiteral.length = 4 ∧
    dictGet (FirebaseConfig.getCollections initClassHeap i) "market_states"
      = some "market_synthesis_states" ∧
    dictGet (FirebaseConfig.getCollections initClassHeap i) "performance_metrics"
      = some "historical_performance" ∧
    dictGet (FirebaseConfig.getCollections initClassHeap i) "allocations"
      = some "resource_allocations" ∧
    dictGet (FirebaseConfig.getCollections initClassHeap i) "system_logs"
      = some "ecosystem_logs" ∧
    FirebaseConfig.getCollections (FirebaseConfig.putCollectionsEntry h i k v) j
      = dictSet (FirebaseConfig.getCollections h i) k v ∧
    dictGet
      (FirebaseConfig.getCollections (FirebaseConfig.putCollectionsEntry h i k v) j) k
      = some v ∧
    FirebaseConfig.getCollections (FirebaseConfig.putCollectionsEntry h i k v)
        (FirebaseConfig.fromDefaults iE)
      = dictSet (FirebaseConfig.getCollections h i) k v := by
  refine ⟨rfl, rfl, rfl, ?_, ?_, ?_, ?_, rfl, dictGet_dictSet _ _ _, rfl⟩ <;>
    simp [FirebaseConfig.getCollections, initClassHeap, collectionsLiteral, dictGet]

end TradingOptimizer
